import Mathlib

/-!
Verification development for the Parrilladas Familiares backend
(src/backend/security.py, src/backend/models.py, src/backend/main.py).

Modelling conventions:
* Python byte strings (passwords after .encode, bcrypt salts and hashes)
  are `List Nat`, one entry per byte.  UTF-8 encoding is injective, so
  quantifying over byte lists is equivalent to quantifying over the
  original text secrets.
* A Python function that can raise an exception returns `Option` (or
  `Except`): `none` / `.error` models the raise.
* The bcrypt library (the external dependency used by security.py) is
  modelled after its documented behaviour: gensalt() produces
  a salt string of shape 0x24,"2b",0x24, two cost digits, 0x24, then 22
  characters of bcrypt's base64 alphabet; hashpw(password, salt) raises
  ValueError when the password contains a NUL byte or the salt does not
  parse, and otherwise returns prefix ++ salt ++ digest where the digest
  depends on (at most) the first 72 bytes of the password; checkpw
  raises ValueError when either argument has a NUL byte or the hash does
  not parse as a salt, and otherwise recomputes the hash with the
  embedded salt and compares.  The 23-byte Blowfish-derived digest is
  idealised as an injective function of the truncated password (a 255
  tag byte followed by the first 72 password bytes): collisions of the
  real fixed-width digest are exactly the "negligible probability"
  events the specification hedges on, while the certain, structural
  collision (truncation to 72 bytes) is kept.
-/

namespace Parrilladas

/-- True when the byte string contains a NUL byte (bcrypt refuses those). -/
def hasNul (l : List Nat) : Bool :=
  l.any (fun b => b == 0)

/-- bcrypt's base64 alphabet: the ASCII bytes of "./0-9A-Za-z". -/
def isB64Char (b : Nat) : Bool :=
  b == 46 || b == 47 || (48 ≤ b && b ≤ 57) || (65 ≤ b && b ≤ 90) ||
    (97 ≤ b && b ≤ 122)

/-- The 7-byte prefix of a bcrypt hash or salt: 0x24,"2b",0x24, the two
decimal cost digits, 0x24 (0x24 is the dollar separator). -/
def bcryptMagic (cost : Nat) : List Nat :=
  [36, 50, 98, 36, 48 + cost / 10 % 10, 48 + cost % 10, 36]

/-- Parse a bcrypt salt/hash prefix: the 2b magic, two cost digits with
the cost in bcrypt's accepted 4..31 range, and 22 base64 salt characters;
returns the cost, the 22 salt bytes, and the remaining bytes (the digest
part, which bcrypt does not validate when a full hash is used as a salt). -/
def bcryptParseSalt (h : List Nat) : Option (Nat × List Nat × List Nat) :=
  match h with
  | 36 :: 50 :: 98 :: 36 :: d1 :: d2 :: 36 :: rest =>
    let cost := (d1 - 48) * 10 + (d2 - 48)
    if (48 ≤ d1 && d1 ≤ 57) && (48 ≤ d2 && d2 ≤ 57) &&
        (4 ≤ cost && cost ≤ 31) && 22 ≤ rest.length &&
        (rest.take 22).all isB64Char then
      some (cost, rest.take 22, rest.drop 22)
    else none
  | _ => none

/-- Idealised model of the bcrypt digest: a 255 tag byte (real digests are
never empty) followed by the password truncated to bcrypt's 72-byte key
limit.  Injective in the truncated password, standing in for the real
collision-resistant 23-byte digest. -/
def bcryptDigest (key : List Nat) : List Nat :=
  255 :: key.take 72

/-- A serialized bcrypt hash: prefix, salt, digest. -/
def bcryptSerialize (cost : Nat) (salt digest : List Nat) : List Nat :=
  bcryptMagic cost ++ salt ++ digest

/-- Model of bcrypt.hashpw(password, salt): ValueError (= none) when the
password has a NUL byte or the salt does not parse; otherwise the full
hash recomputed from the embedded cost and salt. -/
def bcrypt_hashpw (password salt : List Nat) : Option (List Nat) :=
  if hasNul password then none
  else
    match bcryptParseSalt salt with
    | none => none
    | some (cost, s, _) => some (bcryptSerialize cost s (bcryptDigest password))

/-- Model of bcrypt.checkpw(password, hashed_password): ValueError
(= none) when either argument has a NUL byte or the stored hash does not
parse as a salt; otherwise hashpw(password, hashed_password) is compared
against hashed_password (the comparison is constant-time in the library;
the model only keeps its value). -/
def bcrypt_checkpw (password hashed : List Nat) : Option Bool :=
  if hasNul password || hasNul hashed then none
  else
    match bcrypt_hashpw password hashed with
    | none => none
    | some ret => some (ret == hashed)

/-- Model of bcrypt.gensalt(): the 2b prefix with the default cost 12
followed by 22 base64 characters; the 22 random characters are passed in
as a parameter (the randomness of the call). -/
def bcrypt_gensalt (saltChars : List Nat) : List Nat :=
  bcryptMagic 12 ++ saltChars

/-- The shape every gensalt() output has: exactly 22 bytes of bcrypt's
base64 alphabet. -/
def goodSaltChars (s : List Nat) : Bool :=
  s.length == 22 && s.all isB64Char

/-- security.verify_password: compares a plain password against a stored
hash via bcrypt.checkpw.  At the byte level the .encode('utf-8') and
isinstance branches are the identity, and no exception handler is
installed around checkpw. -/
def verify_password (plain_password hashed_password : List Nat) : Option Bool :=
  bcrypt_checkpw plain_password hashed_password

/-- security.get_password_hash: hashpw with a fresh gensalt() salt, the
salt randomness appearing as the extra parameter. -/
def get_password_hash (password : List Nat) (saltChars : List Nat) :
    Option (List Nat) :=
  bcrypt_hashpw password (bcrypt_gensalt saltChars)

-- Basic facts about the bcrypt model.

theorem isB64Char_pos {b : Nat} (h : isB64Char b = true) : 0 < b := by
  simp only [isB64Char, Bool.or_eq_true, Bool.and_eq_true, beq_iff_eq,
    decide_eq_true_eq] at h
  omega

theorem hasNul_append (l₁ l₂ : List Nat) :
    hasNul (l₁ ++ l₂) = (hasNul l₁ || hasNul l₂) := by
  simp [hasNul]

theorem hasNul_eq_false_iff (l : List Nat) :
    hasNul l = false ↔ ∀ b ∈ l, b ≠ 0 := by
  simp [hasNul, List.any_eq_true]

theorem hasNul_take_eq_false {l : List Nat} (n : Nat)
    (h : hasNul l = false) : hasNul (l.take n) = false := by
  rw [hasNul_eq_false_iff] at h ⊢
  exact fun b hb => h b (List.mem_of_mem_take hb)

theorem hasNul_of_goodSaltChars {s : List Nat} (h : goodSaltChars s = true) :
    hasNul s = false := by
  rcases Bool.and_eq_true .. ▸ h with ⟨_, hall⟩
  rw [hasNul_eq_false_iff]
  intro b hb
  have := isB64Char_pos (List.all_eq_true.mp hall b hb)
  omega

theorem bcryptParseSalt_gensalt {sc : List Nat}
    (h : goodSaltChars sc = true) :
    bcryptParseSalt (bcrypt_gensalt sc) = some (12, sc, []) := by
  rcases Bool.and_eq_true .. ▸ h with ⟨hlen, hall⟩
  have hlen' : sc.length = 22 := by simpa using hlen
  have htake : sc.take 22 = sc := List.take_of_length_le (le_of_eq hlen')
  have hdrop : sc.drop 22 = [] := List.drop_eq_nil_of_le (le_of_eq hlen')
  show bcryptParseSalt (36 :: 50 :: 98 :: 36 :: 49 :: 50 :: 36 :: sc)
      = some (12, sc, [])
  simp [bcryptParseSalt, hlen', htake, hdrop, hall]

theorem get_password_hash_eq {pw sc : List Nat} (hpw : hasNul pw = false)
    (hsc : goodSaltChars sc = true) :
    get_password_hash pw sc = some (bcryptSerialize 12 sc (bcryptDigest pw)) := by
  simp [get_password_hash, bcrypt_hashpw, hpw, bcryptParseSalt_gensalt hsc]

theorem hasNul_serialize {sc q : List Nat} (hq : hasNul q = false)
    (hsc : goodSaltChars sc = true) :
    hasNul (bcryptSerialize 12 sc (bcryptDigest q)) = false := by
  have hm : hasNul (bcryptMagic 12) = false := by decide
  have hq' := hasNul_take_eq_false 72 hq
  have hd : hasNul (bcryptDigest q) = false := by
    rw [hasNul_eq_false_iff] at hq' ⊢
    intro b hb
    rcases List.mem_cons.mp hb with h | h
    · omega
    · exact hq' b h
  simp [bcryptSerialize, hasNul_append, hm, hasNul_of_goodSaltChars hsc, hd]

theorem bcryptParseSalt_serialize {sc : List Nat} (d : List Nat)
    (hsc : goodSaltChars sc = true) :
    bcryptParseSalt (bcryptSerialize 12 sc d) = some (12, sc, d) := by
  rcases Bool.and_eq_true .. ▸ hsc with ⟨hlen, hall⟩
  have hlen' : sc.length = 22 := by simpa using hlen
  have h1 : bcryptSerialize 12 sc d
      = 36 :: 50 :: 98 :: 36 :: 49 :: 50 :: 36 :: (sc ++ d) := by
    simp [bcryptSerialize, bcryptMagic]
  have htake : (sc ++ d).take 22 = sc := by
    rw [← hlen']; exact List.take_left sc d
  have hdrop : (sc ++ d).drop 22 = d := by
    rw [← hlen']; exact List.drop_left sc d
  have hge : 22 ≤ sc.length + d.length := by omega
  rw [h1]
  simp [bcryptParseSalt, htake, hdrop, hall, hge]

theorem bcrypt_checkpw_serialize {p q sc : List Nat}
    (hp : hasNul p = false) (hq : hasNul q = false)
    (hsc : goodSaltChars sc = true) :
    bcrypt_checkpw p (bcryptSerialize 12 sc (bcryptDigest q))
      = some (p.take 72 == q.take 72) := by
  have hh := hasNul_serialize hq hsc
  unfold bcrypt_checkpw bcrypt_hashpw
  rw [hp, hh, bcryptParseSalt_serialize _ hsc]
  simp only [Bool.or_self, Bool.false_or, if_neg (by simp : ¬False), ite_false,
    Bool.false_eq_true, if_false]
  congr 1
  rw [Bool.eq_iff_iff, beq_iff_eq, beq_iff_eq]
  simp [bcryptSerialize, bcryptDigest]

/-- C1 counterexample: the claim quantifies over every non-empty secret,
but for the non-empty secret consisting of a single NUL byte
get_password_hash raises ValueError (bcrypt refuses NUL bytes), so the
hash-then-verify pipeline does not return true. -/
theorem get_password_hash_nul_raises :
    ([0] : List Nat) ≠ [] ∧
    get_password_hash [0] (List.replicate 22 97) = none ∧
    (get_password_hash [0] (List.replicate 22 97)).bind
      (fun h => verify_password [0] h) ≠ some true := by
  decide

/-- C1 (amended): for every non-empty secret containing no NUL byte, and
every salt gensalt() can produce, hashing with get_password_hash and then
checking with verify_password returns true. -/
theorem verify_password_get_password_hash_ok (p sc : List Nat)
    (hne : p ≠ []) (hnul : hasNul p = false)
    (hsc : goodSaltChars sc = true) :
    (get_password_hash p sc).bind (fun h => verify_password p h)
      = some true := by
  rw [get_password_hash_eq hnul hsc, Option.some_bind, verify_password,
    bcrypt_checkpw_serialize hnul hnul hsc]
  simp

/-- C1 witness: the amended theorem applied at the one-byte secret 0x61
and the all-0x61 salt. -/
theorem verify_password_get_password_hash_ok_witness :
    (get_password_hash [97] (List.replicate 22 97)).bind
      (fun h => verify_password [97] h) = some true :=
  verify_password_get_password_hash_ok [97] (List.replicate 22 97)
    (by decide) (by decide) (by decide)

/-- C2 counterexample: for the secret 0x61 and the malformed stored hash
0x78 ("x"), verify_password raises ValueError (modelled as none) instead
of returning false: bcrypt.checkpw is called with no exception handler
and raises on a hash that does not parse. -/
theorem verify_password_malformed_raises :
    verify_password [97] [120] = none ∧
    verify_password [97] [120] ≠ some false := by
  decide

/-- C2 (amended): verify_password raises exactly when one of the inputs
contains a NUL byte or the stored hash does not parse as a bcrypt
salt+hash; on every other input it returns a boolean. -/
theorem verify_password_raises_iff (s h : List Nat) :
    verify_password s h = none ↔
      (hasNul s = true ∨ hasNul h = true ∨ bcryptParseSalt h = none) := by
  unfold verify_password bcrypt_checkpw bcrypt_hashpw
  cases hs : hasNul s <;> cases hh : hasNul h <;> simp [hs, hh] <;>
    cases hp : bcryptParseSalt h <;> simp [hp]

/-- C2 witness: the characterization applied at the concrete malformed
hash 0x78. -/
theorem verify_password_raises_iff_witness :
    verify_password [97] [120] = none ↔
      (hasNul [97] = true ∨ hasNul [120] = true ∨
        bcryptParseSalt [120] = none) :=
  verify_password_raises_iff [97] [120]

/-- C6 counterexample: bcrypt only keys on the first 72 bytes of the
secret, so the 73-byte secret of 0x61 bytes verifies (deterministically,
not with negligible probability) against the hash of the different
72-byte secret of 0x61 bytes. -/
theorem verify_password_truncation_collision :
    (List.replicate 73 97 : List Nat) ≠ List.replicate 72 97 ∧
    (get_password_hash (List.replicate 72 97) (List.replicate 22 97)).bind
      (fun h => verify_password (List.replicate 73 97) h) = some true := by
  decide

/-- C6 (amended): for secrets without NUL bytes whose first 72 bytes
differ, verifying one against the hash of the other returns false. -/
theorem verify_password_wrong_secret (p1 p2 sc : List Nat)
    (h1 : hasNul p1 = false) (h2 : hasNul p2 = false)
    (hsc : goodSaltChars sc = true)
    (hne : p1.take 72 ≠ p2.take 72) :
    (get_password_hash p2 sc).bind (fun h => verify_password p1 h)
      = some false := by
  rw [get_password_hash_eq h2 hsc, Option.some_bind, verify_password,
    bcrypt_checkpw_serialize h1 h2 hsc]
  simp [hne]

/-- C6 witness: the amended theorem applied at the one-byte secrets 0x61
and 0x62. -/
theorem verify_password_wrong_secret_witness :
    (get_password_hash [98] (List.replicate 22 97)).bind
      (fun h => verify_password [97] h) = some false :=
  verify_password_wrong_secret [97] [98] (List.replicate 22 97)
    (by decide) (by decide) (by decide) (by decide)

/-! ## Identity mapping layer

bson's ObjectId stores 12 raw bytes (`List Nat`, each < 256).  Its string
form is 24 lowercase hex characters (binascii.hexlify); parsing a string
goes through bytes.fromhex, which accepts hex digits of either case with
ASCII whitespace permitted between byte pairs. -/

/-- Hex digit as accepted by bytes.fromhex: 0-9, a-f, A-F. -/
def isHexChar (c : Char) : Bool :=
  ('0' ≤ c && c ≤ '9') || ('a' ≤ c && c ≤ 'f') || ('A' ≤ c && c ≤ 'F')

/-- Numeric value of a hex digit character. -/
def hexVal (c : Char) : Nat :=
  if '0' ≤ c && c ≤ '9' then c.toNat - 48
  else if 'a' ≤ c && c ≤ 'f' then c.toNat - 87
  else c.toNat - 55

/-- ASCII whitespace as CPython (Py_ISSPACE) treats it: space, tab, LF,
VT, FF, CR.  bytes.fromhex skips all of these between byte pairs. -/
def isPyWhitespace (c : Char) : Bool :=
  c = ' ' || c = '\t' || c = '\n' || c = '\x0b' || c = '\x0c' || c = '\r'

/-- CPython bytes.fromhex: two hex digits per byte, ASCII whitespace
allowed between byte pairs (and leading/trailing); any other character,
whitespace inside a pair, or an odd number of digits raises ValueError
(= none). -/
def bytesFromHex : List Char → Option (List Nat)
  | [] => some []
  | [c] => if isPyWhitespace c then some [] else none
  | c :: c2 :: rest =>
    if isPyWhitespace c then bytesFromHex (c2 :: rest)
    else if isHexChar c && isHexChar c2 then
      (bytesFromHex rest).map (fun bs => (hexVal c * 16 + hexVal c2) :: bs)
    else none

/-- The lowercase hex digit table used by hexlify / str(ObjectId). -/
def hexLowerChar : Nat → Char
  | 0 => '0' | 1 => '1' | 2 => '2' | 3 => '3' | 4 => '4'
  | 5 => '5' | 6 => '6' | 7 => '7' | 8 => '8' | 9 => '9'
  | 10 => 'a' | 11 => 'b' | 12 => 'c' | 13 => 'd' | 14 => 'e'
  | _ => 'f'

/-- binascii.hexlify: two lowercase hex characters per byte. -/
def hexlifyChars : List Nat → List Char
  | [] => []
  | b :: bs => hexLowerChar (b / 16) :: hexLowerChar (b % 16) :: hexlifyChars bs

/-- str(ObjectId): the 24-character lowercase hex rendering of the 12
id bytes. -/
def toWireString (oid : List Nat) : String :=
  ⟨hexlifyChars oid⟩

/-- bson's ObjectId.is_valid on a str argument: a falsy (empty) value is
invalid; otherwise ObjectId(s) must not raise, i.e. the string must have
length exactly 24 and decode under bytes.fromhex. -/
def objectIdIsValidStr (s : String) : Bool :=
  !s.data.isEmpty && s.data.length == 24 && (bytesFromHex s.data).isSome

/-- models.PyObjectId's validate_object_id: raise ValueError (= none)
when ObjectId.is_valid is false, otherwise construct the ObjectId (decode
the hex string to its 12 bytes). -/
def validate_object_id (s : String) : Option (List Nat) :=
  if objectIdIsValidStr s then bytesFromHex s.data else none

/-- The id-validity predicate exactly as the specification words it:
24 characters, all lowercase hexadecimal. -/
def specIsValidId (s : String) : Bool :=
  s.data.length == 24 &&
    s.data.all (fun c => ('0' ≤ c && c ≤ '9') || ('a' ≤ c && c ≤ 'f'))

theorem hexLowerChar_spec (n : Nat) (h : n < 16) :
    isHexChar (hexLowerChar n) = true ∧
      isPyWhitespace (hexLowerChar n) = false ∧
      hexVal (hexLowerChar n) = n := by
  interval_cases n <;> decide

theorem isHexChar_not_ws {c : Char} (h : isHexChar c = true) :
    isPyWhitespace c = false := by
  cases hw : isPyWhitespace c
  · rfl
  · exfalso
    have hor : c = ' ' ∨ c = '\t' ∨ c = '\n' ∨ c = '\x0b' ∨ c = '\x0c' ∨
        c = '\r' := by
      simpa [isPyWhitespace, or_assoc] using hw
    rcases hor with h1 | h1 | h1 | h1 | h1 | h1 <;> subst h1 <;>
      exact absurd h (by decide)

theorem hexlifyChars_length : ∀ bs : List Nat,
    (hexlifyChars bs).length = 2 * bs.length
  | [] => rfl
  | _ :: bs => by
    simp [hexlifyChars, hexlifyChars_length bs]
    omega

theorem bytesFromHex_hexlify : ∀ bs : List Nat, (∀ b ∈ bs, b < 256) →
    bytesFromHex (hexlifyChars bs) = some bs
  | [], _ => rfl
  | b :: bs, h => by
    have hb : b < 256 := h b (List.mem_cons_self b bs)
    have hdiv : b / 16 < 16 := by omega
    have hmod : b % 16 < 16 := by omega
    obtain ⟨hx1, hs1, hv1⟩ := hexLowerChar_spec _ hdiv
    obtain ⟨hx2, hs2, hv2⟩ := hexLowerChar_spec _ hmod
    have ih := bytesFromHex_hexlify bs (fun x hx => h x (List.mem_cons_of_mem _ hx))
    simp [hexlifyChars, bytesFromHex, hs1, hx1, hx2, ih, hv1, hv2]
    omega

theorem bytesFromHex_isSome_of_allHex : ∀ (n : Nat) (l : List Char),
    l.length = 2 * n → (∀ c ∈ l, isHexChar c = true) →
    (bytesFromHex l).isSome = true
  | 0, l, hlen, _ => by
    have : l = [] := List.eq_nil_of_length_eq_zero (by omega)
    subst this
    rfl
  | n + 1, [], hlen, _ => by simp at hlen
  | n + 1, [c], hlen, _ => by simp at hlen; omega
  | n + 1, c1 :: c2 :: rest, hlen, hhex => by
    have hx1 : isHexChar c1 = true := hhex c1 (by simp)
    have hx2 : isHexChar c2 = true := hhex c2 (by simp)
    have ih := bytesFromHex_isSome_of_allHex n rest
      (by simp at hlen; omega)
      (fun c hc => hhex c (by simp [hc]))
    simp [bytesFromHex, isHexChar_not_ws hx1, hx1, hx2, ih]

theorem bytesFromHex_none_of_bad : ∀ (l : List Char) (c : Char), c ∈ l →
    isHexChar c = false → isPyWhitespace c = false → bytesFromHex l = none
  | [], c, hc, _, _ => absurd hc (List.not_mem_nil c)
  | [c1], c, hc, hhex, hws => by
    have h : c = c1 := by simpa using hc
    subst h
    simp [bytesFromHex, hws]
  | c1 :: c2 :: rest, c, hc, hhex, hws => by
    by_cases h1 : isPyWhitespace c1 = true
    · have hmem : c ∈ c2 :: rest := by
        rcases List.mem_cons.mp hc with h | h
        · subst h
          rw [h1] at hws
          exact absurd hws (by simp)
        · exact h
      simp [bytesFromHex, h1,
        bytesFromHex_none_of_bad (c2 :: rest) c hmem hhex hws]
    · have h1f : isPyWhitespace c1 = false := by
        cases hv : isPyWhitespace c1
        · rfl
        · exact absurd hv h1
      rcases List.mem_cons.mp hc with h | h
      · subst h
        simp [bytesFromHex, h1f, hhex]
      · rcases List.mem_cons.mp h with h2 | h2
        · subst h2
          by_cases hx1 : isHexChar c1 <;> simp [bytesFromHex, h1f, hx1, hhex]
        · by_cases hx1 : isHexChar c1 <;> by_cases hx2 : isHexChar c2 <;>
            simp [bytesFromHex, h1f, hx1, hx2,
              bytesFromHex_none_of_bad rest c h2 hhex hws]

/-- C3 counterexample: ObjectId.is_valid accepts a 24-character
uppercase hex string (bytes.fromhex is case-insensitive), while the claim
requires strings containing uppercase letters to be rejected. -/
theorem objectIdIsValid_uppercase_accepted :
    objectIdIsValidStr "507F1F77BCF86CD799439011" = true ∧
    specIsValidId "507F1F77BCF86CD799439011" = false := by
  decide

theorem objectIdIsValidStr_iff (s : String) :
    objectIdIsValidStr s = true ↔
      s.data.length = 24 ∧ (bytesFromHex s.data).isSome = true := by
  simp only [objectIdIsValidStr, Bool.and_eq_true, Bool.not_eq_true',
    List.isEmpty_eq_false, beq_iff_eq]
  constructor
  · rintro ⟨⟨_, h2⟩, h3⟩
    exact ⟨h2, h3⟩
  · rintro ⟨h2, h3⟩
    refine ⟨⟨?_, h2⟩, h3⟩
    intro h
    rw [h] at h2
    simp at h2

/-- C3 (amended): is_valid on a string is true iff the length is exactly
24 and the string decodes under bytes.fromhex; concretely it accepts
every 24-character string of hex digits of either case, rejects every
string whose length is not 24 (hence the empty string), rejects every
string containing a character that is neither a hex digit nor ASCII
whitespace, and even accepts 24-character strings padded with ASCII
whitespace between byte pairs, such as a 22-hex-digit id with two
trailing tabs. -/
theorem objectIdIsValidStr_spec :
    (∀ s : String, objectIdIsValidStr s = true ↔
        s.data.length = 24 ∧ (bytesFromHex s.data).isSome = true) ∧
    (∀ s : String, s.data.length = 24 → (∀ c ∈ s.data, isHexChar c = true) →
      objectIdIsValidStr s = true) ∧
    (∀ s : String, s.data.length ≠ 24 → objectIdIsValidStr s = false) ∧
    (∀ s : String,
      (∃ c ∈ s.data, isHexChar c = false ∧ isPyWhitespace c = false) →
      objectIdIsValidStr s = false) ∧
    objectIdIsValidStr "507f1f77bcf86cd7994390\t\t" = true := by
  refine ⟨objectIdIsValidStr_iff, ?_, ?_, ?_, by decide⟩
  · intro s hlen hhex
    exact (objectIdIsValidStr_iff s).mpr ⟨hlen,
      bytesFromHex_isSome_of_allHex 12 s.data (by omega) hhex⟩
  · intro s hlen
    have hbeq : (s.data.length == 24) = false := by
      simpa using hlen
    simp only [objectIdIsValidStr, hbeq, Bool.and_false, Bool.false_and]
  · rintro s ⟨c, hc, hhex, hws⟩
    simp only [objectIdIsValidStr,
      bytesFromHex_none_of_bad s.data c hc hhex hws, Option.isSome_none,
      Bool.and_false, Bool.false_and]

/-- C3 witness: the amended theorem's acceptance clause applied at the
canonical lowercase example id. -/
theorem objectIdIsValidStr_spec_witness :
    objectIdIsValidStr "507f1f77bcf86cd799439011" = true :=
  objectIdIsValidStr_spec.2.1 "507f1f77bcf86cd799439011" (by decide) (by decide)

/-- C4: round-trip law: parsing (via PyObjectId's validate_object_id) the
wire string of any valid 12-byte EntityId returns the same id, and the
serialization is idempotent: re-parsing the output reproduces the same
wire string. -/
theorem validate_object_id_roundtrip (e : List Nat)
    (hlen : e.length = 12) (hb : ∀ b ∈ e, b < 256) :
    validate_object_id (toWireString e) = some e ∧
    Option.map toWireString (validate_object_id (toWireString e))
      = some (toWireString e) := by
  have hdec : bytesFromHex (toWireString e).data = some e := by
    show bytesFromHex (hexlifyChars e) = some e
    exact bytesFromHex_hexlify e hb
  have hlen24 : (toWireString e).data.length = 24 := by
    show (hexlifyChars e).length = 24
    rw [hexlifyChars_length]
    omega
  have hvalid : objectIdIsValidStr (toWireString e) = true := by
    have hne : (toWireString e).data ≠ [] := by
      intro h
      rw [h] at hlen24
      simp at hlen24
    simp [objectIdIsValidStr, hlen24, hdec, hne]
  refine ⟨?_, ?_⟩ <;> simp [validate_object_id, hvalid, hdec]

/-- C4 witness: the round-trip theorem applied at the 12 bytes of the
id 507f1f77bcf86cd799439011. -/
theorem validate_object_id_roundtrip_witness :
    validate_object_id
        (toWireString [80, 127, 31, 119, 188, 248, 108, 215, 153, 67, 144, 17])
      = some [80, 127, 31, 119, 188, 248, 108, 215, 153, 67, 144, 17] :=
  (validate_object_id_roundtrip _ (by decide) (by decide)).1

/-! ## Records and collections

Mongo documents / Python dicts are association lists with insertion
order.  The backend never computes on numeric payloads (prices,
quantities), so numbers are carried opaquely as integers. -/

/-- A stored value.  `oid` is a native ObjectId (12 bytes); `raw` is a
Python str carried at the byte level (used for bcrypt hashes). -/
inductive Value where
  | str : String → Value
  | raw : List Nat → Value
  | num : Int → Value
  | boolv : Bool → Value
  | null : Value
  | oid : List Nat → Value
  | arr : List Value → Value
  | obj : List (String × Value) → Value

/-- A Mongo document / Python dict, in insertion order. -/
abbrev Record := List (String × Value)

/-- Python dict lookup d.get(key). -/
def lookupField : Record → String → Option Value
  | [], _ => none
  | (k, v) :: rest, key => if k = key then some v else lookupField rest key

/-- Python dict assignment d[key] = v (also Mongo $set of one field):
replaces the binding in place when the key is present, appends at the
end otherwise. -/
def setField : Record → String → Value → Record
  | [], key, v => [(key, v)]
  | (k, w) :: rest, key, v =>
    if k = key then (key, v) :: rest else (k, w) :: setField rest key v

/-- Python del d[key]. -/
def removeField : Record → String → Record
  | [], _ => []
  | (k, w) :: rest, key =>
    if k = key then removeField rest key else (k, w) :: removeField rest key

/-- The Mongo filter {"_id": ObjectId(k)} on a document. -/
def idMatches (r : Record) (k : List Nat) : Bool :=
  match lookupField r "_id" with
  | some (Value.oid b) => b == k
  | _ => false

/-- Mongo find_one({"_id": k}): the first matching document. -/
def find_one (coll : List Record) (k : List Nat) : Option Record :=
  coll.find? (fun r => idMatches r k)

theorem lookupField_setField : ∀ (r : Record) (key key' : String) (v : Value),
    lookupField (setField r key v) key' =
      if key' = key then some v else lookupField r key'
  | [], key, key', v => by
    by_cases h : key' = key
    · simp [setField, lookupField, h]
    · simp [setField, lookupField, h, Ne.symm h]
  | (k, w) :: rest, key, key', v => by
    by_cases hk : k = key
    · subst hk
      by_cases h : key' = k
      · simp [setField, lookupField, h]
      · simp [setField, lookupField, h, Ne.symm h]
    · by_cases h2 : k = key'
      · subst h2
        simp [setField, lookupField, hk]
      · simp [setField, lookupField, hk, h2,
          lookupField_setField rest key key' v]

theorem lookupField_removeField : ∀ (r : Record) (key key' : String),
    lookupField (removeField r key) key' =
      if key' = key then none else lookupField r key'
  | [], key, key' => by
    by_cases h : key' = key <;> simp [removeField, lookupField, h]
  | (k, w) :: rest, key, key' => by
    by_cases hk : k = key
    · subst hk
      by_cases h : key' = k
      · subst h
        simp [removeField, lookupField, lookupField_removeField rest key' key']
      · simp [removeField, lookupField, h, Ne.symm h,
          lookupField_removeField rest k key']
    · by_cases h2 : k = key'
      · subst h2
        simp [removeField, lookupField, hk,
          lookupField_removeField rest key k]
      · simp [removeField, lookupField, hk, h2,
          lookupField_removeField rest key key']

/-! ## Pydantic models (src/backend/models.py)

pydantic models have a fixed, declared field set: unknown request keys
are dropped, so a client cannot smuggle extra fields through them.
Float-typed fields (precio, subtotal, ...) are opaque payloads to this
backend (never computed on) and are carried as integers. -/

/-- models.ProductoEnCarrito. -/
structure ProductoEnCarrito where
  producto_id : String
  cantidad : Int

/-- models.Especificacion. -/
structure Especificacion where
  nombre : String
  valor : String

/-- models.Producto: id is the PyObjectId field aliased to _id. -/
structure Producto where
  id : Option (List Nat)
  nombre : String
  descripcion : String
  precio : Int
  categoria : String
  imagen : String
  especificaciones : Option (List Especificacion)

/-- models.Pedido: id aliased to _id; no estado field is declared. -/
structure Pedido where
  id : Option (List Nat)
  items : List ProductoEnCarrito
  subtotal : Int
  envio : Int
  descuento : Int
  total : Int
  metodo_entrega : String
  sucursal : Option String
  hora_retiro : Option String
  direccion : Option String
  comuna : Option String
  telefono : Option String
  horario_preferido : Option String

/-- models.UserCreate: the registration payload.  The password and the
confirmation are secrets, carried at the byte level like every other
secret in this development. -/
structure UserCreate where
  email : String
  password : List Nat
  confirm : List Nat
  terminos : Bool

def optStrValue : Option String → Value
  | none => Value.null
  | some s => Value.str s

def itemValue (i : ProductoEnCarrito) : Value :=
  Value.obj [("producto_id", Value.str i.producto_id),
             ("cantidad", Value.num i.cantidad)]

def especValue (e : Especificacion) : Value :=
  Value.obj [("nombre", Value.str e.nombre), ("valor", Value.str e.valor)]

/-- pedido.dict(by_alias=True, exclude={"id"}): the id field (whose alias
is _id) is dropped; every other declared field appears under its own
name, in declaration order. -/
def pedidoDict (p : Pedido) : Record :=
  [("items", Value.arr (p.items.map itemValue)),
   ("subtotal", Value.num p.subtotal),
   ("envio", Value.num p.envio),
   ("descuento", Value.num p.descuento),
   ("total", Value.num p.total),
   ("metodo_entrega", Value.str p.metodo_entrega),
   ("sucursal", optStrValue p.sucursal),
   ("hora_retiro", optStrValue p.hora_retiro),
   ("direccion", optStrValue p.direccion),
   ("comuna", optStrValue p.comuna),
   ("telefono", optStrValue p.telefono),
   ("horario_preferido", optStrValue p.horario_preferido)]

/-- producto.dict(by_alias=True, exclude={"id"}). -/
def productoDict (p : Producto) : Record :=
  [("nombre", Value.str p.nombre),
   ("descripcion", Value.str p.descripcion),
   ("precio", Value.num p.precio),
   ("categoria", Value.str p.categoria),
   ("imagen", Value.str p.imagen),
   ("especificaciones",
     match p.especificaciones with
     | none => Value.null
     | some l => Value.arr (l.map especValue))]

/-- Modelled from the spec: models.Reserva is referenced by main.py's
reservation endpoints but is missing from src/backend/models.py.  The
spec describes reservations only as flat records identified by EntityId,
so the model keeps the aliased id field plus an opaque list of the
remaining flat fields under their own declared names (pydantic field
names are declared Python identifiers, so none of them is "_id", and the
dict call excludes "id"; the claim theorems carry that as a hypothesis). -/
structure Reserva where
  id : Option (List Nat)
  datos : Record

/-- reserva.dict(by_alias=True, exclude={"id"}) for the spec-modelled
reservation: the id field is dropped, the remaining fields kept. -/
def reservaDict (r : Reserva) : Record :=
  r.datos

/-! ## Endpoints (src/backend/main.py) -/

/-- main.create_order: the document handed to insert_one on the orders
collection: the Pedido serialized without its id, then estado assigned
server-side. -/
def create_order_doc (pedido : Pedido) : Record :=
  setField (pedidoDict pedido) "estado" (Value.str "Ingresado")

/-- main.create_product: the document handed to insert_one on the
products collection. -/
def create_product_doc (producto : Producto) : Record :=
  productoDict producto

/-- main.create_reservation: the document handed to insert_one on the
reservations collection. -/
def create_reservation_doc (reserva : Reserva) : Record :=
  reservaDict reserva

/-- Python str() of a stored value as the read endpoints use it: the
only values the endpoints ever stringify are store-assigned ObjectIds
(insert paths never provide _id, the store does), rendered as 24 hex
characters; a str passes through unchanged. -/
def valueToStr : Value → String
  | Value.oid b => toWireString b
  | Value.str s => s
  | _ => ""

/-- main.get_products, per returned record: if "_id" in product:
product["_id"] = str(product["_id"]): the key stays "_id", only the
value becomes a string. -/
def productOut (r : Record) : Record :=
  match lookupField r "_id" with
  | none => r
  | some v => setField r "_id" (Value.str (valueToStr v))

/-- main.get_products: every stored product, with the _id value
stringified (the 100-document cap and no-filter find are kept out of the
per-record mapping). -/
def get_products (products : List Record) : List Record :=
  products.map productOut

/-- main.get_orders / main.get_reservations, per returned record:
order["id"] = str(order["_id"]); del order["_id"].  Reading a missing
_id raises KeyError (= none). -/
def renameIdOut (r : Record) : Option Record :=
  match lookupField r "_id" with
  | none => none
  | some v =>
    some (removeField (setField r "id" (Value.str (valueToStr v))) "_id")

/-- main.get_orders: every stored order through the id rename (the
newest-first sort does not change which records are returned). -/
def get_orders (orders : List Record) : Option (List Record) :=
  orders.mapM renameIdOut

/-- main.get_product_detail: 400 before any storage access when the id
string is malformed; 404 when no document matches; otherwise the
document with its _id value stringified (the key stays "_id"). -/
def get_product_detail (coll : List Record) (id : String) :
    Except Nat Record :=
  if !objectIdIsValidStr id then Except.error 400
  else
    match bytesFromHex id.data with
    | none => Except.error 400
    | some k =>
      match find_one coll k with
      | none => Except.error 404
      | some product =>
        match lookupField product "_id" with
        | none => Except.error 500
        | some v =>
          Except.ok (setField product "_id" (Value.str (valueToStr v)))

/-- main.get_single_order: 400 on malformed id, 404 on no match,
otherwise the order with _id renamed to id. -/
def get_single_order (coll : List Record) (id : String) :
    Except Nat Record :=
  if !objectIdIsValidStr id then Except.error 400
  else
    match bytesFromHex id.data with
    | none => Except.error 400
    | some k =>
      match find_one coll k with
      | none => Except.error 404
      | some order =>
        match renameIdOut order with
        | none => Except.error 500
        | some o => Except.ok o

/-- Mongo update_one({"_id": k}, {"$set": {"estado": v}}): sets estado on
the first matching document only, returning the new collection and the
matched count. -/
def updateOneEstado : List Record → List Nat → String → List Record × Nat
  | [], _, _ => ([], 0)
  | r :: rest, k, v =>
    if idMatches r k then (setField r "estado" (Value.str v) :: rest, 1)
    else ((r :: (updateOneEstado rest k v).1), (updateOneEstado rest k v).2)

/-- main.update_reservation_status: 400 before any storage access on a
malformed id; otherwise the update runs and a zero matched count becomes
404.  The resulting collection is returned alongside the HTTP outcome. -/
def update_reservation_status (coll : List Record) (id : String)
    (estado : String) : List Record × Except Nat String :=
  if !objectIdIsValidStr id then (coll, Except.error 400)
  else
    match bytesFromHex id.data with
    | none => (coll, Except.error 400)
    | some k =>
      if (updateOneEstado coll k estado).2 = 0 then
        ((updateOneEstado coll k estado).1, Except.error 404)
      else
        ((updateOneEstado coll k estado).1,
          Except.ok ("Reserva actualizada a " ++ estado))

/-- The Mongo filter {"email": e} used by register_user's duplicate
check. -/
def emailMatches (r : Record) (e : String) : Bool :=
  match lookupField r "email" with
  | some (Value.str s) => s == e
  | _ => false

/-- main.register_user: password must equal confirm, terms must be
accepted, the email must be new; then the stored document is built
exactly as the source does: dict(exclude={"confirm"}), assignment of
hashed_password, deletion of password.  The salt randomness of
get_password_hash is the extra parameter; a bcrypt failure propagates
(500). -/
def register_user (coll : List Record) (u : UserCreate)
    (saltChars : List Nat) : Except Nat Record :=
  if u.password ≠ u.confirm then Except.error 400
  else if !u.terminos then Except.error 400
  else if (coll.find? (fun r => emailMatches r u.email)).isSome then
    Except.error 400
  else
    match get_password_hash u.password saltChars with
    | none => Except.error 500
    | some h =>
      Except.ok (removeField
        (setField
          [("email", Value.str u.email),
           ("password", Value.raw u.password),
           ("terminos", Value.boolv u.terminos)]
          "hashed_password" (Value.raw h))
        "password")

-- Facts about updateOneEstado.

theorem updateOneEstado_no_match : ∀ (coll : List Record) (k : List Nat)
    (v : String), (∀ r ∈ coll, idMatches r k = false) →
    updateOneEstado coll k v = (coll, 0)
  | [], _, _, _ => rfl
  | r :: rest, k, v, h => by
    have h1 : idMatches r k = false := h r (List.mem_cons_self r rest)
    have ih := updateOneEstado_no_match rest k v
      (fun x hx => h x (List.mem_cons_of_mem r hx))
    simp [updateOneEstado, h1, ih]

theorem updateOneEstado_matched_zero : ∀ (coll : List Record) (k : List Nat)
    (v : String),
    ((updateOneEstado coll k v).2 = 0 ↔ ∀ r ∈ coll, idMatches r k = false)
  | [], k, v => by simp [updateOneEstado]
  | r :: rest, k, v => by
    by_cases h : idMatches r k
    · simp [updateOneEstado, h]
    · simp [updateOneEstado, h, updateOneEstado_matched_zero rest k v]

theorem updateOneEstado_first_match : ∀ (pre : List Record) (r : Record)
    (post : List Record) (k : List Nat) (v : String),
    (∀ x ∈ pre, idMatches x k = false) → idMatches r k = true →
    updateOneEstado (pre ++ r :: post) k v
      = (pre ++ setField r "estado" (Value.str v) :: post, 1)
  | [], r, post, k, v, _, hr => by simp [updateOneEstado, hr]
  | x :: pre, r, post, k, v, hpre, hr => by
    have hx : idMatches x k = false := hpre x (List.mem_cons_self x pre)
    have ih := updateOneEstado_first_match pre r post k v
      (fun y hy => hpre y (List.mem_cons_of_mem x hy)) hr
    simp [updateOneEstado, hx, ih]

-- Sample stored documents used by concrete instances below.

/-- A sample stored product (store-assigned _id). -/
def sampleStoredProduct : Record :=
  [("_id", Value.oid [80, 127, 31, 119, 188, 248, 108, 215, 153, 67, 144, 17]),
   ("nombre", Value.str "Parrillada Familiar")]

/-- A sample stored reservation (store-assigned _id). -/
def sampleReservation : Record :=
  [("_id", Value.oid [80, 127, 31, 119, 188, 248, 108, 215, 153, 67, 144, 17]),
   ("estado", Value.str "Pendiente"),
   ("fecha", Value.str "2025-01-01")]

/-- A sample registration payload (secret bytes of "Secret1!"). -/
def sampleUser : UserCreate :=
  { email := "ana@mail.cl"
    password := [83, 101, 99, 114, 101, 116, 49, 33]
    confirm := [83, 101, 99, 114, 101, 116, 49, 33]
    terminos := true }

/-- The document register_user stores for sampleUser with the all-0x61
salt. -/
def sampleStoredUser : Record :=
  match register_user [] sampleUser (List.replicate 22 97) with
  | Except.ok r => r
  | _ => []

/-- C5: for the three single-record endpoints, HTTP 400 is returned
exactly on malformed id strings - independently of the stored
collections, so the decision precedes any storage lookup - and HTTP 404
exactly on well-formed ids that match no stored record; the update
endpoint also leaves its collection untouched on a 400.  The two
outcomes are never conflated because their characterizations are
mutually exclusive. -/
theorem endpoint_error_discrimination (collP collO collR : List Record)
    (id estado : String) :
    (get_product_detail collP id = Except.error 400 ↔
      objectIdIsValidStr id = false) ∧
    (get_single_order collO id = Except.error 400 ↔
      objectIdIsValidStr id = false) ∧
    ((update_reservation_status collR id estado).2 = Except.error 400 ↔
      objectIdIsValidStr id = false) ∧
    (get_product_detail collP id = Except.error 404 ↔
      (objectIdIsValidStr id = true ∧
        ∃ k, bytesFromHex id.data = some k ∧ find_one collP k = none)) ∧
    (get_single_order collO id = Except.error 404 ↔
      (objectIdIsValidStr id = true ∧
        ∃ k, bytesFromHex id.data = some k ∧ find_one collO k = none)) ∧
    ((update_reservation_status collR id estado).2 = Except.error 404 ↔
      (objectIdIsValidStr id = true ∧
        ∃ k, bytesFromHex id.data = some k ∧
          (∀ x ∈ collR, idMatches x k = false))) ∧
    (objectIdIsValidStr id = false →
      update_reservation_status collR id estado
        = (collR, Except.error 400)) := by
  by_cases hv : objectIdIsValidStr id = true
  · obtain ⟨k, hk⟩ : ∃ k, bytesFromHex id.data = some k :=
      Option.isSome_iff_exists.mp ((objectIdIsValidStr_iff id).mp hv).2
    have h400P : ¬ get_product_detail collP id = Except.error 400 := by
      rcases hfind : find_one collP k with _ | p
      · simp [get_product_detail, hv, hk, hfind]
      · rcases hl : lookupField p "_id" with _ | v <;>
          simp [get_product_detail, hv, hk, hfind, hl]
    have h400O : ¬ get_single_order collO id = Except.error 400 := by
      rcases hfind : find_one collO k with _ | o
      · simp [get_single_order, hv, hk, hfind]
      · rcases hro : renameIdOut o with _ | o2 <;>
          simp [get_single_order, hv, hk, hfind, hro]
    have h400R : ¬ (update_reservation_status collR id estado).2
        = Except.error 400 := by
      by_cases hz : (updateOneEstado collR k estado).2 = 0 <;>
        simp [update_reservation_status, hv, hk, hz]
    have h404P : get_product_detail collP id = Except.error 404 ↔
        find_one collP k = none := by
      rcases hfind : find_one collP k with _ | p
      · simp [get_product_detail, hv, hk, hfind]
      · rcases hl : lookupField p "_id" with _ | v <;>
          simp [get_product_detail, hv, hk, hfind, hl]
    have h404O : get_single_order collO id = Except.error 404 ↔
        find_one collO k = none := by
      rcases hfind : find_one collO k with _ | o
      · simp [get_single_order, hv, hk, hfind]
      · rcases hro : renameIdOut o with _ | o2 <;>
          simp [get_single_order, hv, hk, hfind, hro]
    have h404R : (update_reservation_status collR id estado).2
        = Except.error 404 ↔ (∀ x ∈ collR, idMatches x k = false) := by
      by_cases hz : (updateOneEstado collR k estado).2 = 0
      · have hall := (updateOneEstado_matched_zero collR k estado).mp hz
        simp only [update_reservation_status, hv, Bool.not_true, hk]
        simp [hz]
        exact hall
      · have hnall : ¬ ∀ x ∈ collR, idMatches x k = false :=
          fun hall => hz ((updateOneEstado_matched_zero collR k estado).mpr hall)
        push_neg at hnall
        simp only [update_reservation_status, hv, Bool.not_true, hk]
        simp [hz]
        simpa using hnall
    refine ⟨?_, ?_, ?_, ?_, ?_, ?_, ?_⟩
    · exact iff_of_false h400P (by simp [hv])
    · exact iff_of_false h400O (by simp [hv])
    · exact iff_of_false h400R (by simp [hv])
    · rw [h404P]
      constructor
      · intro hnone
        exact ⟨hv, k, hk, hnone⟩
      · rintro ⟨_, k2, hk2, hnone⟩
        rw [hk] at hk2
        injection hk2 with he
        subst he
        exact hnone
    · rw [h404O]
      constructor
      · intro hnone
        exact ⟨hv, k, hk, hnone⟩
      · rintro ⟨_, k2, hk2, hnone⟩
        rw [hk] at hk2
        injection hk2 with he
        subst he
        exact hnone
    · rw [h404R]
      constructor
      · intro hall
        exact ⟨hv, k, hk, hall⟩
      · rintro ⟨_, k2, hk2, hall⟩
        rw [hk] at hk2
        injection hk2 with he
        subst he
        exact hall
    · intro h
      rw [hv] at h
      exact absurd h (by simp)
  · have hv2 : objectIdIsValidStr id = false := by
      cases hvv : objectIdIsValidStr id
      · rfl
      · exact absurd hvv hv
    refine ⟨?_, ?_, ?_, ?_, ?_, ?_, ?_⟩ <;>
      simp [get_product_detail, get_single_order, update_reservation_status,
        hv2]

/-- C5 witness: the 400 characterization applied to the malformed id
"zz" on empty collections. -/
theorem endpoint_error_discrimination_witness :
    get_product_detail [] "zz" = Except.error 400 :=
  (endpoint_error_discrimination [] [] [] "zz" "X").1.mpr (by decide)

/-- C7 counterexample: the products read path does not rename the
primary-key field: get_products returns the record with the key still
"_id" (value stringified) and no "id" key at all, although the claim
requires the rename on every read path. -/
theorem get_products_keeps_native_key :
    get_products [sampleStoredProduct]
      = [[("_id", Value.str "507f1f77bcf86cd799439011"),
          ("nombre", Value.str "Parrillada Familiar")]] ∧
    lookupField (productOut sampleStoredProduct) "id" = none :=
  ⟨rfl, rfl⟩

/-- C7 (amended): every insert path omits both id and _id so the store
assigns the id (for the spec-modelled reservation under the pydantic
guarantee that its declared non-id fields are named neither id nor _id);
the orders and reservations read paths rename _id to id on every
returned record, preserving all other fields; the products read paths
instead keep the key _id and only stringify its value. -/
theorem field_aliasing_spec :
    (∀ p : Pedido, lookupField (create_order_doc p) "_id" = none ∧
      lookupField (create_order_doc p) "id" = none) ∧
    (∀ pr : Producto, lookupField (create_product_doc pr) "_id" = none ∧
      lookupField (create_product_doc pr) "id" = none) ∧
    (∀ rv : Reserva, lookupField rv.datos "_id" = none →
      lookupField rv.datos "id" = none →
      lookupField (create_reservation_doc rv) "_id" = none ∧
      lookupField (create_reservation_doc rv) "id" = none) ∧
    (∀ (r : Record) (v : Value), lookupField r "_id" = some v →
      ∃ r2, renameIdOut r = some r2 ∧
        lookupField r2 "id" = some (Value.str (valueToStr v)) ∧
        lookupField r2 "_id" = none ∧
        (∀ key, key ≠ "id" → key ≠ "_id" →
          lookupField r2 key = lookupField r key)) ∧
    (∀ (r : Record) (v : Value), lookupField r "_id" = some v →
      lookupField (productOut r) "_id" = some (Value.str (valueToStr v)) ∧
      (∀ key, key ≠ "_id" →
        lookupField (productOut r) key = lookupField r key)) := by
  refine ⟨?_, ?_, ?_, ?_, ?_⟩
  · intro p
    constructor
    · rw [create_order_doc, lookupField_setField]
      simp [pedidoDict, lookupField]
    · rw [create_order_doc, lookupField_setField]
      simp [pedidoDict, lookupField]
  · intro pr
    constructor
    · simp [create_product_doc, productoDict, lookupField]
    · simp [create_product_doc, productoDict, lookupField]
  · intro rv h1 h2
    exact ⟨h1, h2⟩
  · intro r v hv
    refine ⟨removeField (setField r "id" (Value.str (valueToStr v))) "_id",
      ?_, ?_, ?_, ?_⟩
    · simp [renameIdOut, hv]
    · rw [lookupField_removeField, lookupField_setField]
      simp
    · rw [lookupField_removeField]
      simp
    · intro key hid hnat
      rw [lookupField_removeField, lookupField_setField]
      simp [hid, hnat]
  · intro r v hv
    constructor
    · simp [productOut, hv, lookupField_setField]
    · intro key hkey
      simp [productOut, hv, lookupField_setField, hkey]

/-- C7 witness: the products-read clause of the amended theorem applied
to the sample stored product. -/
theorem field_aliasing_spec_witness :
    lookupField (productOut sampleStoredProduct) "_id"
      = some (Value.str (valueToStr
          (Value.oid [80, 127, 31, 119, 188, 248, 108, 215, 153, 67, 144, 17]))) :=
  (field_aliasing_spec.2.2.2.2 sampleStoredProduct
    (Value.oid [80, 127, 31, 119, 188, 248, 108, 215, 153, 67, 144, 17]) rfl).1

/-- C8: a successful registration stores the bcrypt hash under
hashed_password and stores neither the plain password nor the
confirmation string. -/
theorem register_user_no_plaintext (coll : List Record) (u : UserCreate)
    (saltChars : List Nat) (r : Record)
    (h : register_user coll u saltChars = Except.ok r) :
    lookupField r "password" = none ∧
    lookupField r "confirm" = none ∧
    (∃ hp, get_password_hash u.password saltChars = some hp ∧
      lookupField r "hashed_password" = some (Value.raw hp)) := by
  unfold register_user at h
  split at h
  · exact absurd h (by simp)
  split at h
  · exact absurd h (by simp)
  split at h
  · exact absurd h (by simp)
  cases hh : get_password_hash u.password saltChars with
  | none =>
    rw [hh] at h
    exact absurd h (by simp)
  | some hp =>
    rw [hh] at h
    simp only [Except.ok.injEq] at h
    subst h
    refine ⟨?_, ?_, hp, rfl, ?_⟩
    · rw [lookupField_removeField]
      simp
    · rw [lookupField_removeField, lookupField_setField]
      simp [lookupField]
    · rw [lookupField_removeField, lookupField_setField]
      simp

/-- C8 witness: the theorem applied to sampleUser's successful
registration on an empty users collection. -/
theorem register_user_no_plaintext_witness :
    lookupField sampleStoredUser "password" = none ∧
    lookupField sampleStoredUser "confirm" = none ∧
    (∃ hp, get_password_hash sampleUser.password (List.replicate 22 97)
        = some hp ∧
      lookupField sampleStoredUser "hashed_password"
        = some (Value.raw hp)) :=
  register_user_no_plaintext [] sampleUser (List.replicate 22 97)
    sampleStoredUser rfl

/-- C9: every order document built by create_order stores estado
"Ingresado", and the serialized Pedido itself has no estado field (the
model declares none, and pydantic drops unknown request keys), so the
client cannot supply or override the initial status. -/
theorem create_order_estado (p : Pedido) :
    lookupField (create_order_doc p) "estado"
      = some (Value.str "Ingresado") ∧
    lookupField (pedidoDict p) "estado" = none := by
  constructor
  · rw [create_order_doc, lookupField_setField]
    simp
  · simp [pedidoDict, lookupField]

/-- C10: for a valid reservation id, update_reservation_status with no
matching reservation returns 404 with the collection entirely unchanged;
with a (first) matching reservation it replaces exactly that reservation
by its estado-updated copy, leaving every other reservation untouched;
and setting estado changes no other field of the matched reservation. -/
theorem update_reservation_status_spec (coll : List Record)
    (id estado : String) (k : List Nat)
    (hvalid : objectIdIsValidStr id = true)
    (hk : bytesFromHex id.data = some k) :
    ((∀ x ∈ coll, idMatches x k = false) →
      update_reservation_status coll id estado
        = (coll, Except.error 404)) ∧
    (∀ pre r post, coll = pre ++ r :: post →
      (∀ x ∈ pre, idMatches x k = false) → idMatches r k = true →
      update_reservation_status coll id estado
        = (pre ++ setField r "estado" (Value.str estado) :: post,
           Except.ok ("Reserva actualizada a " ++ estado))) ∧
    (∀ r : Record, ∀ key, key ≠ "estado" →
      lookupField (setField r "estado" (Value.str estado)) key
        = lookupField r key) ∧
    (∀ r : Record,
      lookupField (setField r "estado" (Value.str estado)) "estado"
        = some (Value.str estado)) := by
  refine ⟨?_, ?_, ?_, ?_⟩
  · intro hnone
    simp [update_reservation_status, hvalid, hk,
      updateOneEstado_no_match coll k estado hnone]
  · intro pre r post hcoll hpre hr
    subst hcoll
    have hupd := updateOneEstado_first_match pre r post k estado hpre hr
    simp [update_reservation_status, hvalid, hk, hupd]
  · intro r key hkey
    rw [lookupField_setField]
    simp [hkey]
  · intro r
    rw [lookupField_setField]
    simp

/-- C10 witness: the first-match clause applied to a one-reservation
collection at the valid id 507f1f77bcf86cd799439011. -/
theorem update_reservation_status_spec_witness :
    update_reservation_status [sampleReservation]
        "507f1f77bcf86cd799439011" "Confirmada"
      = ([setField sampleReservation "estado" (Value.str "Confirmada")],
         Except.ok ("Reserva actualizada a " ++ "Confirmada")) :=
  (update_reservation_status_spec [sampleReservation]
      "507f1f77bcf86cd799439011" "Confirmada"
      [80, 127, 31, 119, 188, 248, 108, 215, 153, 67, 144, 17]
      (by decide) (by decide)).2.1 [] sampleReservation [] rfl
    (by simp) (by decide)

end Parrilladas
